import Mathlib

/-!
Verification of the hierarchical request-classification and delegation core
of the NekoNexus agent tree.  Python strings are modelled as lists of
characters; the Python substring test `needle in haystack` is modelled by
`containsSub`, and the ASCII fragment of `str.lower` (the only part relevant
to the all-Japanese keyword tables) by `pyLower`.
-/

namespace NekoNexus

/-- Python `str` values, as lists of characters. -/
abbrev Str := List Char

/-- The needle is a left segment of the haystack (helper for `containsSub`). -/
def beginsWith : Str → Str → Bool
  | [], _ => true
  | _ :: _, [] => false
  | a :: as, b :: bs => a == b && beginsWith as bs

/-- Python `needle in haystack`: contiguous-substring membership.
An empty needle occurs in every haystack, as in Python. -/
def containsSub (haystack needle : Str) : Bool :=
  match haystack with
  | [] => beginsWith needle []
  | _ :: t => beginsWith needle haystack || containsSub t needle

/-- ASCII case folding of one character; identity on every non-ASCII (in
particular every Japanese) character, matching `str.lower` on the inputs the
keyword tables can produce. -/
def pyLowerChar (c : Char) : Char :=
  if 'A' ≤ c ∧ c ≤ 'Z' then Char.ofNat (c.toNat + 32) else c

/-- Python `request.lower()` restricted to ASCII case folding. -/
def pyLower (s : Str) : Str := s.map pyLowerChar

/-- Score of one keyword table against a request, as in
`sum(1 for keyword in keywords if keyword in request)`. -/
def keywordScore (keywords : List Str) (request : Str) : Nat :=
  (keywords.filter (fun kw => containsSub request kw)).length

/-- `data_keywords` of `ManagerCat._determine_request_type`. -/
def dataKeywords : List Str :=
  (["データ", "分析", "統計", "グラフ", "チャート", "可視化", "傾向", "相関",
    "予測", "売上", "レポート", "集計", "情報", "調査", "比較", "分類", "集める",
    "数字", "図表", "トレンド", "資料", "推移", "変化", "調べる", "検索"]).map String.data

/-- `operation_keywords` of `ManagerCat._determine_request_type`. -/
def operationKeywords : List Str :=
  (["業務", "オペレーション", "プロセス", "作業", "フロー", "手順", "効率化",
    "改善", "最適化", "プロジェクト", "管理", "実行", "実施", "計画", "スケジュール",
    "タスク", "運用", "設計", "進捗", "状況", "進める", "推進", "実装", "導入"]).map String.data

/-- `system_keywords` of `ManagerCat._determine_request_type`. -/
def systemKeywords : List Str :=
  (["システム", "サーバー", "ネットワーク", "インフラ", "セキュリティ", "構成",
    "設定", "環境", "デプロイ", "メンテナンス", "保守", "バックアップ", "監視",
    "通知", "アラート", "障害", "復旧", "診断", "テスト", "バグ", "エラー"]).map String.data

/-- `ManagerCat._determine_request_type`: keyword scores against the raw
request (the lowercased word split computed by the source is unused there),
maximum score, and the data > operation > system priority cascade; the final
fall-through returns `"general"`. -/
def managerDetermineRequestType (request : Str) : String :=
  let dataScore := keywordScore dataKeywords request
  let operationScore := keywordScore operationKeywords request
  let systemScore := keywordScore systemKeywords request
  let maxScore := max dataScore (max operationScore systemScore)
  if maxScore > 0 then
    if dataScore = maxScore then "data"
    else if operationScore = maxScore then "operation"
    else if systemScore = maxScore then "system"
    else "general"
  else
    "general"

/-- `research_keywords` of `DataManagerCat._determine_request_type`. -/
def researchKeywords : List Str :=
  (["調査", "検索", "情報収集", "調べて", "探して", "確認して"]).map String.data

/-- `analysis_keywords` of `DataManagerCat._determine_request_type`. -/
def analysisKeywords : List Str :=
  (["分析", "統計", "相関", "傾向", "グラフ", "可視化", "予測"]).map String.data

/-- Flag `has_research` of `DataManagerCat._determine_request_type`. -/
def dmHasResearch (request : Str) : Bool :=
  researchKeywords.any (fun kw => containsSub (pyLower request) kw)

/-- Flag `has_analysis` of `DataManagerCat._determine_request_type`. -/
def dmHasAnalysis (request : Str) : Bool :=
  analysisKeywords.any (fun kw => containsSub (pyLower request) kw)

/-- `DataManagerCat._determine_request_type`: boolean keyword membership over
the lowercased request, with `"combined"` as the fall-through category. -/
def dmDetermineRequestType (request : Str) : String :=
  let hasResearch := dmHasResearch request
  let hasAnalysis := dmHasAnalysis request
  if hasResearch && !hasAnalysis then "research_only"
  else if hasAnalysis && !hasResearch then "analysis_only"
  else "combined"

/-- Claim C1: whenever every keyword category of a node's classifier scores
zero on a request, that classifier returns the node's documented default
category — per node: any request zero-scoring at the dispatcher yields
`"general"` there, and any request with both data-manager flags false yields
`"combined"` there, regardless of how the request scores at the other node.
Both classifiers are total Lean functions, so no exception can be raised for
any request, the empty string included. -/
theorem claim1_zero_score_default :
    (∀ request : Str,
        keywordScore dataKeywords request = 0 →
        keywordScore operationKeywords request = 0 →
        keywordScore systemKeywords request = 0 →
        managerDetermineRequestType request = "general") ∧
    (∀ request : Str,
        dmHasResearch request = false →
        dmHasAnalysis request = false →
        dmDetermineRequestType request = "combined") := by
  constructor
  · intro request hd ho hs
    simp [managerDetermineRequestType, hd, ho, hs]
  · intro request hr ha
    simp [dmDetermineRequestType, hr, ha]

/-- Claim C1 witness: the empty request yields the default at both nodes;
探して zero-scores at the dispatcher (though it matches a data-manager
research keyword) and yields `"general"` there; 売上 leaves both
data-manager flags false (though it scores at the dispatcher) and yields
`"combined"` there. -/
theorem claim1_zero_score_default_witness :
    managerDetermineRequestType [] = "general" ∧
    dmDetermineRequestType [] = "combined" ∧
    managerDetermineRequestType ("探して").data = "general" ∧
    dmDetermineRequestType ("売上").data = "combined" :=
  ⟨claim1_zero_score_default.1 [] (by decide) (by decide) (by decide),
   claim1_zero_score_default.2 [] (by decide) (by decide),
   claim1_zero_score_default.1 ("探して").data (by decide) (by decide)
     (by decide),
   claim1_zero_score_default.2 ("売上").data (by decide) (by decide)⟩

/-- Claim C2: ties at the maximal keyword score are resolved by the fixed
priority order.  For the dispatcher, any request where the data score reaches
the maximum (so in particular any tie involving data) resolves to `"data"`,
and a tie between operation and system above data resolves to `"operation"`,
matching the data > operation > system cascade.  For the data manager, a
request matching both of its keyword categories resolves to its fixed tie
category `"combined"`.  Both classifiers are pure functions of the request,
so repeated calls return the same category. -/
theorem claim2_tie_break :
    (∀ request : Str,
        0 < keywordScore dataKeywords request →
        keywordScore operationKeywords request ≤ keywordScore dataKeywords request →
        keywordScore systemKeywords request ≤ keywordScore dataKeywords request →
        managerDetermineRequestType request = "data") ∧
    (∀ request : Str,
        keywordScore dataKeywords request < keywordScore operationKeywords request →
        keywordScore systemKeywords request ≤ keywordScore operationKeywords request →
        managerDetermineRequestType request = "operation") ∧
    (∀ request : Str,
        dmHasResearch request = true →
        dmHasAnalysis request = true →
        dmDetermineRequestType request = "combined") ∧
    (∀ request : Str,
        managerDetermineRequestType request = managerDetermineRequestType request ∧
        dmDetermineRequestType request = dmDetermineRequestType request) := by
  refine ⟨?_, ?_, ?_, ?_⟩
  · intro request h0 hod hsd
    have hmax : max (keywordScore dataKeywords request)
        (max (keywordScore operationKeywords request)
          (keywordScore systemKeywords request)) =
        keywordScore dataKeywords request := by omega
    simp [managerDetermineRequestType, hmax, h0]
  · intro request hdo hso
    have hmax : max (keywordScore dataKeywords request)
        (max (keywordScore operationKeywords request)
          (keywordScore systemKeywords request)) =
        keywordScore operationKeywords request := by omega
    have h0 : 0 < keywordScore operationKeywords request := by omega
    have hne : ¬ keywordScore dataKeywords request =
        keywordScore operationKeywords request := by omega
    simp [managerDetermineRequestType, hmax, h0, hne]
  · intro request hr ha
    simp [dmDetermineRequestType, hr, ha]
  · intro request
    exact ⟨rfl, rfl⟩

/-- Claim C2 witness: concrete tie requests.  `データ業務` ties data and
operation at score one and resolves to `"data"`; `業務監視` ties operation and
system at score one (data scores zero) and resolves to `"operation"`;
`調査分析` matches both data-manager categories and resolves to
`"combined"`. -/
theorem claim2_tie_break_witness :
    managerDetermineRequestType "データ業務".data = "data" ∧
    managerDetermineRequestType "業務監視".data = "operation" ∧
    dmDetermineRequestType "調査分析".data = "combined" :=
  ⟨claim2_tie_break.1 "データ業務".data (by decide) (by decide) (by decide),
   claim2_tie_break.2.1 "業務監視".data (by decide) (by decide),
   claim2_tie_break.2.2.1 "調査分析".data (by decide) (by decide)⟩

/-- The `_add_to_history` / `_update_metrics_history` body shared (copied) by
`ErrorHandlerCat`, `MonitorCat` and `SystemCat`: append the new entry, then
drop the front entry (`pop(0)`) when the length now exceeds the maximum. -/
def addToHistory {α : Type} (maxLength : Nat) (history : List α) (entry : α) :
    List α :=
  let h := history ++ [entry]
  if maxLength < h.length then h.tail else h

/-- `ErrorHandlerCat.max_history_length`. -/
def errorHandlerCatMaxHistoryLength : Nat := 100

/-- `MonitorCat.max_history_length`. -/
def monitorCatMaxHistoryLength : Nat := 1000

/-- `SystemCat.max_history_length`. -/
def systemCatMaxHistoryLength : Nat := 100

theorem addToHistory_length_le {α : Type} (maxLength : Nat) (history : List α)
    (entry : α) (h : history.length ≤ maxLength) :
    (addToHistory maxLength history entry).length ≤ maxLength := by
  simp only [addToHistory]
  split
  · rename_i hc
    simp only [List.length_tail, List.length_append, List.length_cons,
      List.length_nil] at hc ⊢
    omega
  · rename_i hc
    simp only [Nat.not_lt, List.length_append, List.length_cons,
      List.length_nil] at hc ⊢
    omega

theorem addToHistory_foldl_length_le {α : Type} (maxLength : Nat)
    (entries : List α) :
    ∀ init : List α, init.length ≤ maxLength →
      (entries.foldl (addToHistory maxLength) init).length ≤ maxLength := by
  induction entries with
  | nil => intro init h; simpa using h
  | cons e rest ih =>
      intro init h
      exact ih (addToHistory maxLength init e)
        (addToHistory_length_le maxLength init e h)

/-- Claim C5: starting from any buffer within its configured bound, any
sequence of appends keeps every bounded history buffer within the bound, and
an append to a full buffer evicts exactly the first (oldest) entry while
keeping the rest in order.  The three configured bounds of the error,
monitoring and metrics buffers are 100, 1000 and 100 entries. -/
theorem claim5_bounded_history :
    (∀ (α : Type) (maxLength : Nat) (init entries : List α),
        init.length ≤ maxLength →
        (entries.foldl (addToHistory maxLength) init).length ≤ maxLength) ∧
    (∀ (α : Type) (maxLength : Nat) (history : List α) (entry : α),
        history.length = maxLength → history ≠ [] →
        addToHistory maxLength history entry = history.tail ++ [entry]) ∧
    errorHandlerCatMaxHistoryLength = 100 ∧
    monitorCatMaxHistoryLength = 1000 ∧
    systemCatMaxHistoryLength = 100 := by
  refine ⟨?_, ?_, rfl, rfl, rfl⟩
  · intro α maxLength init entries h
    exact addToHistory_foldl_length_le maxLength entries init h
  · intro α maxLength history entry hlen hne
    simp only [addToHistory]
    have hgt : maxLength < (history ++ [entry]).length := by
      simp [hlen]
    rw [if_pos hgt]
    cases history with
    | nil => exact absurd rfl hne
    | cons a t => simp

/-- Claim C5 witness: with bound 2, folding three appends over the empty
buffer stays within the bound, and appending to the full buffer `[1, 2]`
evicts the oldest entry, giving `[2, 3]`. -/
theorem claim5_bounded_history_witness :
    (([1, 2, 3] : List Nat).foldl (addToHistory 2) []).length ≤ 2 ∧
    addToHistory 2 [1, 2] 3 = [2, 3] :=
  ⟨claim5_bounded_history.1 Nat 2 [] [1, 2, 3] (by decide),
   claim5_bounded_history.2.1 Nat 2 [1, 2] 3 (by decide) (by decide)⟩

/-- Handle to the shared `SqliteAgentStorage` instance passed down the tree. -/
structure SqliteAgentStorageRef where
  dbPath : Str
deriving DecidableEq

/-- State of `DataAnalystCat` after `__init__`: the debug flag, the storage
handle (`storage or None`), the result dictionaries and the two
never-constructed sub-agent references. -/
structure DataAnalystCat where
  debugMode : Bool
  storage : Option SqliteAgentStorageRef
  analysisResults : List (String × String)
  visualizationResults : List (String × String)
  statisticalAnalysisCat : Option Unit
  visualizationCat : Option Unit
deriving DecidableEq

/-- `DataAnalystCat.__init__`. -/
def DataAnalystCat.init (storage : Option SqliteAgentStorageRef)
    (debugMode : Bool) : DataAnalystCat :=
  { debugMode := debugMode
    storage := storage
    analysisResults := []
    visualizationResults := []
    statisticalAnalysisCat := none
    visualizationCat := none }

/-- State of `DataManagerCat` relevant to lazy child construction. -/
structure DataManagerCat where
  debugMode : Bool
  storage : Option SqliteAgentStorageRef
  researchCat : Option Unit
  dataAnalystCat : Option DataAnalystCat
deriving DecidableEq

/-- `DataManagerCat.__init__`. -/
def DataManagerCat.init (storage : Option SqliteAgentStorageRef)
    (debugMode : Bool) : DataManagerCat :=
  { debugMode := debugMode
    storage := storage
    researchCat := none
    dataAnalystCat := none }

/-- `DataManagerCat._initialize_sub_agents_if_needed`: construct the analyst
child only when it is still `None`, passing the node's storage handle and
debug flag; the research child stays unimplemented. -/
def DataManagerCat.initializeSubAgentsIfNeeded (s : DataManagerCat) :
    DataManagerCat :=
  match s.dataAnalystCat with
  | none => { s with dataAnalystCat := some (DataAnalystCat.init s.storage s.debugMode) }
  | some _ => s

/-- State of `ManagerCat` relevant to lazy child construction. -/
structure ManagerCat where
  debugMode : Bool
  dataManager : Option DataManagerCat
  operationManager : Option Unit
  systemManager : Option Unit
deriving DecidableEq

/-- `ManagerCat._initialize_sub_agents_if_needed`: construct the data manager
child only when it is still `None` (the source passes `storage=None` down);
the operation and system children stay unimplemented. -/
def ManagerCat.initializeSubAgentsIfNeeded (s : ManagerCat) : ManagerCat :=
  match s.dataManager with
  | none => { s with dataManager := some (DataManagerCat.init none s.debugMode) }
  | some _ => s

/-- Claim C6: the lazy child initializer of each node is idempotent — running
it twice produces the same state as running it once — and a child that is
already constructed is never replaced or reset, so each child is constructed
at most once over the node's lifetime. -/
theorem claim6_lazy_init_idempotent :
    (∀ s : ManagerCat,
        (s.initializeSubAgentsIfNeeded).initializeSubAgentsIfNeeded =
          s.initializeSubAgentsIfNeeded) ∧
    (∀ s : DataManagerCat,
        (s.initializeSubAgentsIfNeeded).initializeSubAgentsIfNeeded =
          s.initializeSubAgentsIfNeeded) ∧
    (∀ (s : ManagerCat) (d : DataManagerCat),
        s.dataManager = some d →
        (s.initializeSubAgentsIfNeeded).dataManager = some d) ∧
    (∀ (s : DataManagerCat) (d : DataAnalystCat),
        s.dataAnalystCat = some d →
        (s.initializeSubAgentsIfNeeded).dataAnalystCat = some d) := by
  refine ⟨?_, ?_, ?_, ?_⟩
  · intro s
    cases h : s.dataManager <;>
      simp [ManagerCat.initializeSubAgentsIfNeeded, h]
  · intro s
    cases h : s.dataAnalystCat <;>
      simp [DataManagerCat.initializeSubAgentsIfNeeded, h]
  · intro s d h
    simp [ManagerCat.initializeSubAgentsIfNeeded, h]
  · intro s d h
    simp [DataManagerCat.initializeSubAgentsIfNeeded, h]

/-- Claim C6 witness: on a manager whose data-manager child is already built,
the initializer leaves the child untouched. -/
theorem claim6_lazy_init_idempotent_witness :
    (ManagerCat.initializeSubAgentsIfNeeded
        { debugMode := false
          dataManager := some (DataManagerCat.init none false)
          operationManager := none
          systemManager := none }).dataManager =
      some (DataManagerCat.init none false) :=
  claim6_lazy_init_idempotent.2.2.1
    { debugMode := false
      dataManager := some (DataManagerCat.init none false)
      operationManager := none
      systemManager := none }
    (DataManagerCat.init none false) rfl

/-- Python `', '.join` style separator join. -/
def joinSep (sep : Str) : List Str → Str
  | [] => []
  | [s] => s
  | s :: t :: rest => s ++ sep ++ joinSep sep (t :: rest)

/-- Decimal rendering of a natural number, for the timestamp-based file
names and the row count interpolated into the report. -/
def natStr (n : Nat) : Str := (toString n).data

/-- The displayed attributes of the pandas sales data frame.  The date
formatting (`strftime`), the column list and the rounded `describe()` table
are produced by the external pandas collaborator and enter the report only as
text, so they are carried here as fields. -/
structure SalesFrame where
  dateMinText : Str
  dateMaxText : Str
  rowCount : Nat
  columns : List Str
  statsText : Str
deriving DecidableEq

/-- The values the `analyze_data` signature accepts for `data`:
a `pd.DataFrame`, a list, or a dict. -/
inductive PyData where
  | frame (df : SalesFrame)
  | pyList
  | pyDict
deriving DecidableEq

/-- Filesystem side effects of `DataAnalystCat.analyze_data`: the
`Path("assets").mkdir(exist_ok=True)` directory ensure at the top of the
method, and each `plt.savefig` chart image write. -/
inductive FsEvent where
  | mkdirAssets
  | savefig (path : Str)
deriving DecidableEq

/-- The fixed `error_message` literal returned by `analyze_data` when no data
frame is provided. -/
def noDataMessage : Str :=
  ("\n## ⚠️ データが提供されていません\n\nデータ分析を行うためには、適切な形式のデータフレームが必要です。\n以下をご確認ください:\n\n1. データが正しく渡されているか\n2. データがpd.DataFrame形式か\n3. 必要なカラムがデータに含まれているか\n\nサンプルデータを自動生成して分析を行う場合は、データ管理猫に「サンプルデータで分析して」とリクエストしてください。\n            ").data

/-- `data_info` block of `_perform_real_data_analysis`. -/
def dataInfoBlock (df : SalesFrame) : Str :=
  ("\nデータの期間: ").data ++ df.dateMinText ++ (" 〜 ").data ++
    df.dateMaxText ++ ("\nデータ行数: ").data ++ natStr df.rowCount ++
    (" 行\nデータ列: ").data ++ joinSep (", ").data df.columns ++ ("\n").data

/-- `sales_trend_path` chart file name. -/
def salesTrendPath (timestamp : Nat) : Str :=
  ("assets/sales_trend_").data ++ natStr timestamp ++ (".png").data

/-- `product_sales_path` chart file name. -/
def productSalesPath (timestamp : Nat) : Str :=
  ("assets/product_sales_").data ++ natStr timestamp ++ (".png").data

/-- `correlation_path` chart file name. -/
def correlationPath (timestamp : Nat) : Str :=
  ("assets/correlation_").data ++ natStr timestamp ++ (".png").data

/-- `product_pie_path` chart file name. -/
def productPiePath (timestamp : Nat) : Str :=
  ("assets/product_pie_").data ++ natStr timestamp ++ (".png").data

/-- Overview section header of the analysis report. -/
def overviewHeader : Str := ("## 📝 データ概要").data

/-- Statistics section header of the analysis report. -/
def statsHeader : Str := ("## 📊 統計情報").data

/-- Visualization section header of the analysis report. -/
def vizHeader : Str := ("## 📈 データ可視化").data

/-- Closing insight block appended after the 総合分析 header. -/
def insightBlock : Str :=
  ("\n### 主要な分析結果\n1. **売上傾向**: 売上高は日によって変動していますが、全体として安定した推移を示しています。\n2. **商品分析**: 商品Aが最も販売数が多く、売上に大きく貢献しています。商品Bと商品Cはそれぞれ市場セグメントに対応した役割を果たしています。\n3. **顧客数との関連**: 顧客数と売上高に強い相関があり、集客施策が売上向上に直結することが示唆されています。\n\n### ビジネス洞察\n- **プロモーション戦略**: 顧客数が売上に直結しているため、集客施策の強化が有効です。特に売上が低い日を狙ったプロモーションを検討するとよいでしょう。\n- **商品戦略**: 商品Aは主力商品として安定した売上を生み出していますが、商品Bと商品Cの販売促進施策も検討する価値があります。\n- **セット販売**: 商品間の販売相関を活かし、セット販売やクロスセリングを強化することで、総合的な売上向上が期待できます。\n\n### 今後の提言\n- **商品ラインナップの拡充**: データに基づいた新商品開発の検討\n- **顧客分析の深化**: 顧客セグメント別の購買傾向分析\n- **在庫最適化**: 販売予測に基づく在庫管理の最適化\n\n詳細な分析や特定の観点からの追加分析が必要な場合は、お気軽にご依頼くださいにゃ～（=^・ω・^=）\n").data

/-- The `analysis_report` list built by `_perform_real_data_analysis`, in
append order. -/
def analysisReportSections (df : SalesFrame) (timestamp : Nat) : List Str :=
  [overviewHeader,
   dataInfoBlock df,
   statsHeader,
   ("```\n").data ++ df.statsText ++ ("\n```").data,
   vizHeader,
   ("### 売上推移").data,
   ("![売上推移グラフ](").data ++ salesTrendPath timestamp ++ (")").data,
   ("日別の売上推移を確認すると、売上は日によって変動していることがわかります。特に週末に向けて上昇する傾向が見られます。").data,
   ("### 商品別販売数").data,
   ("![商品別販売数グラフ](").data ++ productSalesPath timestamp ++ (")").data,
   ("商品別の販売数を見ると、商品Aの販売数が最も多く、次いで商品B、商品Cの順となっています。商品Aは主力商品として安定した販売数を記録しています。").data,
   ("### 相関分析").data,
   ("![相関ヒートマップ](").data ++ correlationPath timestamp ++ (")").data,
   ("変数間の相関分析を行った結果、以下の傾向が見られました：").data,
   ("- 売上高と顧客数の間には強い正の相関があり、来店客数が増えると売上も増加する傾向があります").data,
   ("- 商品Aの販売数と売上高の相関が最も高く、商品Aが売上に大きく貢献していることがわかります").data,
   ("- 商品B、商品Cも売上に一定の貢献をしていますが、その影響度は商品Aよりも小さいようです").data,
   ("### 商品別販売割合").data,
   ("![商品別販売割合グラフ](").data ++ productPiePath timestamp ++ (")").data,
   ("## 🔍 総合分析").data,
   insightBlock]

/-- `DataAnalystCat._perform_real_data_analysis`: the report is the section
list joined with blank lines, and one chart image is written per section
figure.  The matplotlib font configuration touches no files and is part of
the external plotting collaborator. -/
def performRealDataAnalysis (df : SalesFrame) (timestamp : Nat) :
    Str × List FsEvent :=
  (joinSep ("\n\n").data (analysisReportSections df timestamp),
   [FsEvent.savefig (salesTrendPath timestamp),
    FsEvent.savefig (productSalesPath timestamp),
    FsEvent.savefig (correlationPath timestamp),
    FsEvent.savefig (productPiePath timestamp)])

/-- `DataAnalystCat.analyze_data`: ensure the assets directory, then run the
real analysis only when `data` is an actual data frame
(`data is not None and isinstance(data, pd.DataFrame)`); otherwise return the
fixed guidance message.  The result carries the returned text, the specialist
state after the call, and the filesystem events in order. -/
def DataAnalystCat.analyzeData (st : DataAnalystCat) (_request : Str)
    (data : Option PyData) (timestamp : Nat) :
    Str × DataAnalystCat × List FsEvent :=
  match data with
  | some (PyData.frame df) =>
      let r := performRealDataAnalysis df timestamp
      (r.1, st, FsEvent.mkdirAssets :: r.2)
  | _ => (noDataMessage, st, [FsEvent.mkdirAssets])

/-- Claim C7: for every request and every specialist state, `analyze_data`
with `data=None` returns the fixed no-data guidance text verbatim, leaves the
specialist state unchanged, and writes no file: the only filesystem event is
the `assets` directory ensure executed at the top of the method, and no chart
image is produced.  The function is total, so the call never raises. -/
theorem claim7_no_data_guidance (st : DataAnalystCat) (request : Str)
    (timestamp : Nat) :
    DataAnalystCat.analyzeData st request none timestamp
      = (noDataMessage, st, [FsEvent.mkdirAssets]) := rfl

/-- Claim C7 witness: concrete evaluation on a fresh specialist and the empty
request. -/
theorem claim7_no_data_guidance_witness :
    DataAnalystCat.analyzeData (DataAnalystCat.init none false) [] none 0
      = (noDataMessage, DataAnalystCat.init none false, [FsEvent.mkdirAssets]) :=
  claim7_no_data_guidance (DataAnalystCat.init none false) [] 0

/-- Claim C10: `analyze_data` treats non-data-frame payloads (a list or a
dict, both accepted by the signature) exactly like `data=None`, returning the
same guidance text with the same (absent) side effects; the real analysis
report is produced only when the payload is a data frame. -/
theorem claim10_non_dataframe_treated_as_none (st : DataAnalystCat)
    (request : Str) (timestamp : Nat) :
    DataAnalystCat.analyzeData st request (some PyData.pyList) timestamp
      = DataAnalystCat.analyzeData st request none timestamp ∧
    DataAnalystCat.analyzeData st request (some PyData.pyDict) timestamp
      = DataAnalystCat.analyzeData st request none timestamp ∧
    (∀ df : SalesFrame,
        (DataAnalystCat.analyzeData st request (some (PyData.frame df))
            timestamp).1
          = (performRealDataAnalysis df timestamp).1) :=
  ⟨rfl, rfl, fun _ => rfl⟩

/-- Claim C10 witness: concrete evaluation on a fresh specialist. -/
theorem claim10_non_dataframe_treated_as_none_witness :
    DataAnalystCat.analyzeData (DataAnalystCat.init none false) []
        (some PyData.pyList) 0
      = DataAnalystCat.analyzeData (DataAnalystCat.init none false) [] none 0 :=
  (claim10_non_dataframe_treated_as_none (DataAnalystCat.init none false)
    [] 0).1

/-- `response_prefix` of `DataManagerCat.process_request`. -/
def dmResponseHead : Str := ("# 🐱 データ管理猫からの応答\n\n").data

/-- Static reply of the `research_only` branch. -/
def dmResearchFallback : Str :=
  dmResponseHead ++ ("## リサーチ機能について\n\n申し訳ありませんが、リサーチ機能は現在実装中です。\n以下のデータ分析機能をご利用ください：\n\n- 売上データの分析\n- 各種統計分析\n- データ可視化\n\nお役に立てず申し訳ありませんにゃ～（=^・ω・^=）").data

/-- The enriched prompt `analysis_request` built around the original request
in the sales-analysis branches. -/
def enrichedSalesRequest (request : Str) : Str :=
  ("以下の先月（2025年1月）の売上データを分析してください：\n\n").data ++ request

/-- Wrapper around the analyst's reply in the `analysis_only` sales branch. -/
def salesAnalysisWrap (analysisResponse : Str) : Str :=
  ("# 📊 売上データ分析結果\n\n").data ++ analysisResponse ++
    ("\n\n何か他にお知りになりたいことがあれば、お気軽にお尋ねくださいにゃ～（=^・ω・^=）").data

/-- The caught-exception reply used, identically, by both sales branches;
`errorText` stands for `str(e)`. -/
def dmAnalysisErrorMessage (errorText : Str) : Str :=
  ("# ⚠️ データ分析中にエラーが発生しました\n\n申し訳ありませんが、売上データの分析中に問題が発生しましたにゃ。\nエラー内容: ").data ++
    errorText ++
    ("\n\n別の方法でお試しいただくか、少し後でもう一度お試しくださいにゃ。").data

/-- Wrapper around the analyst's reply in the `combined` sales branch. -/
def combinedSalesWrap (analysisResponse : Str) : Str :=
  ("# 📊 売上データ分析結果\n\nまず情報を収集し、次にデータ分析を行いました。\n\n").data ++
    analysisResponse ++
    ("\n\n他に詳しく分析したい点があれば教えてくださいにゃ～（=^・ω・^=）").data

/-- Wrapper around the analyst's reply in the non-sales `analysis_only`
branch. -/
def dmOtherAnalysisWrap (analysisResponse : Str) : Str :=
  dmResponseHead ++ analysisResponse ++
    ("\n\nデータ分析猫と協力して分析を行いました（=^・ω・^=）").data

/-- Static reply of the non-sales `combined` branch. -/
def dmCombinedFallback : Str :=
  dmResponseHead ++ ("## リクエストについて\n\n申し訳ありませんが、このタイプのリクエストは現在対応できません。\n以下のようなデータ分析リクエストをお試しください：\n\n- 「先月の売上データを分析して」\n- 「売上高の推移を教えて」\n- 「商品別の販売数を分析して」\n\nデータ分析に関するご質問があれば、お気軽にお尋ねくださいにゃ～（=^・ω・^=）").data

/-- `DataManagerCat.process_request`, with the analyst call abstracted:
`analyze req data` stands for `self.data_analyst_cat.analyze_data(...)`,
`Except.error e` for the call raising an exception with text `e`, and
`sampleFrame` for the generated pandas sample sales data.  Only the two
sales branches guard the call with `try`/`except`; the non-sales
`analysis_only` branch calls the analyst unguarded, so an exception there
propagates (modelled by returning `Except.error`). -/
def dmProcessRequestE (analyze : Str → Option PyData → Except Str Str)
    (sampleFrame : SalesFrame) (request : Str) : Except Str Str :=
  let requestType := dmDetermineRequestType request
  if requestType = "research_only" then
    Except.ok dmResearchFallback
  else if requestType = "analysis_only" then
    if containsSub request ("売上").data && containsSub request ("分析").data then
      match analyze (enrichedSalesRequest request)
          (some (PyData.frame sampleFrame)) with
      | Except.ok a => Except.ok (salesAnalysisWrap a)
      | Except.error e => Except.ok (dmAnalysisErrorMessage e)
    else
      match analyze request none with
      | Except.ok a => Except.ok (dmOtherAnalysisWrap a)
      | Except.error e => Except.error e
  else
    if containsSub request ("売上").data && containsSub request ("分析").data then
      match analyze (enrichedSalesRequest request)
          (some (PyData.frame sampleFrame)) with
      | Except.ok a => Except.ok (combinedSalesWrap a)
      | Except.error e => Except.ok (dmAnalysisErrorMessage e)
    else
      Except.ok dmCombinedFallback

/-- `wrapped_response` of the dispatcher's `operation` branch. -/
def managerOperationFallback : Str :=
  ("\n# 🐱 マネージャー猫からの応答\n\n## 業務遂行機能について\n\n申し訳ありませんが、業務遂行機能は現在実装中です。\n現在ご利用いただけるのは以下の機能です：\n\n- データ分析: 「売上データを分析して」\n- グラフ作成: 「売上の推移をグラフにして」\n- 統計情報: 「商品別の売上比率を教えて」\n\nお手伝いできることがあれば、またお声がけくださいにゃん！（=^・ω・^=）\n").data

/-- `wrapped_response` of the dispatcher's `system` branch. -/
def managerSystemFallback : Str :=
  ("\n# 🐱 マネージャー猫からの応答\n\n## システム管理機能について\n\n申し訳ありませんが、システム管理機能は現在実装中です。\n現在ご利用いただけるのは以下の機能です：\n\n- データ分析: 「売上データを分析して」\n- グラフ作成: 「売上の推移をグラフにして」\n- 統計情報: 「商品別の売上比率を教えて」\n\nお手伝いできることがあれば、またお声がけくださいにゃん！（=^・ω・^=）\n").data

/-- `wrapped_response` of the dispatcher's fall-through branch. -/
def managerGeneralFallback : Str :=
  ("\n# 🐱 マネージャー猫からの応答\n\n## お問い合わせについて\n\nこんにちは、マネージャー猫です！\n\n現在、以下の機能に対応しています：\n\n- データ分析: 「売上データを分析して」\n- グラフ作成: 「売上の推移をグラフにして」\n- 統計情報: 「商品別の売上比率を教えて」\n\nお手伝いできることがあれば、お気軽にお声がけくださいにゃん！（=^・ω・^=）\n").data

/-- `ManagerCat.process_request`: classify the user request, forward `data`
requests to the data manager unguarded (any exception from below
propagates), and answer the other categories with static fallbacks. -/
def managerProcessRequestE (analyze : Str → Option PyData → Except Str Str)
    (sampleFrame : SalesFrame) (userRequest : Str) : Except Str Str :=
  let requestType := managerDetermineRequestType userRequest
  if requestType = "data" then
    dmProcessRequestE analyze sampleFrame userRequest
  else if requestType = "operation" then
    Except.ok managerOperationFallback
  else if requestType = "system" then
    Except.ok managerSystemFallback
  else
    Except.ok managerGeneralFallback

/-- Normal-return test for delegation results. -/
def isOkE : Except Str Str → Bool
  | Except.ok _ => true
  | Except.error _ => false

theorem beginsWith_map (f : Char → Char) :
    ∀ needle haystack : Str, beginsWith needle haystack = true →
      beginsWith (needle.map f) (haystack.map f) = true := by
  intro needle
  induction needle with
  | nil => intro h _; simp [beginsWith]
  | cons a as ih =>
      intro h hb
      cases h with
      | nil => simp [beginsWith] at hb
      | cons b bs =>
          simp only [beginsWith, Bool.and_eq_true, beq_iff_eq] at hb
          obtain ⟨hab, h2⟩ := hb
          simp only [List.map_cons, beginsWith, Bool.and_eq_true, beq_iff_eq]
          exact ⟨by rw [hab], ih bs h2⟩

theorem containsSub_map (f : Char → Char) :
    ∀ haystack needle : Str, containsSub haystack needle = true →
      containsSub (haystack.map f) (needle.map f) = true := by
  intro haystack
  induction haystack with
  | nil =>
      intro needle h
      cases needle with
      | nil => simp [containsSub, beginsWith, List.map_nil]
      | cons _ _ => simp [containsSub, beginsWith] at h
  | cons c t ih =>
      intro needle h
      simp only [containsSub, Bool.or_eq_true] at h
      simp only [List.map_cons, containsSub, Bool.or_eq_true]
      rcases h with h | h
      · exact Or.inl (beginsWith_map f needle (c :: t) h)
      · exact Or.inr (ih needle h)

theorem dmHasAnalysis_of_analysis (request : Str)
    (h : containsSub request ("分析").data = true) :
    dmHasAnalysis request = true := by
  have h1 := containsSub_map pyLowerChar request ("分析").data h
  have hkw : (("分析").data).map pyLowerChar = ("分析").data := by decide
  rw [hkw] at h1
  simp only [dmHasAnalysis, analysisKeywords, List.map_cons, List.map_nil,
    List.any_cons, List.any_nil, Bool.or_eq_true]
  exact Or.inl (by rw [pyLower]; exact h1)

/-- Concrete frame standing for the generated sample sales data in closed
evaluations. -/
def sampleFrameStub : SalesFrame :=
  { dateMinText := []
    dateMaxText := []
    rowCount := 0
    columns := []
    statsText := [] }

/-- Claim C3 counterexample: for the request `グラフ` (classified
`analysis_only` but not matching the sales pair 売上/分析), the data manager
calls the analyst outside any `try`, so an analyst exception propagates raw
to the caller instead of being converted to a user-facing message. -/
theorem claim3_counterexample :
    dmProcessRequestE (fun _ _ => Except.error ("boom").data) sampleFrameStub
        ("グラフ").data
      = Except.error ("boom").data := rfl

/-- Claim C3 amended: specialist exceptions are caught at the data manager
only in the sales-analysis branches.  For every request containing both
売上 and 分析 as substrings, `process_request` returns normally whatever the
analyst does (a raised exception is converted to the fixed error message),
and the dispatcher then also returns normally; outside those branches the
non-sales `analysis_only` path propagates the exception, as the
counterexample shows. -/
theorem claim3_amended (analyze : Str → Option PyData → Except Str Str)
    (sampleFrame : SalesFrame) (request : Str)
    (hsales : containsSub request ("売上").data = true)
    (hanal : containsSub request ("分析").data = true) :
    isOkE (dmProcessRequestE analyze sampleFrame request) = true ∧
    isOkE (managerProcessRequestE analyze sampleFrame request) = true := by
  have hA : dmHasAnalysis request = true := dmHasAnalysis_of_analysis request hanal
  have hty : dmDetermineRequestType request = "analysis_only" ∨
      dmDetermineRequestType request = "combined" := by
    unfold dmDetermineRequestType
    cases hR : dmHasResearch request <;> simp [hA, hR]
  have hdm : isOkE (dmProcessRequestE analyze sampleFrame request) = true := by
    simp only [dmProcessRequestE]
    rcases hty with h | h <;> rw [h]
    · rw [if_neg (by decide), if_pos rfl]
      rw [if_pos (by simp [hsales, hanal])]
      cases analyze (enrichedSalesRequest request)
          (some (PyData.frame sampleFrame)) <;> rfl
    · rw [if_neg (by decide), if_neg (by decide)]
      rw [if_pos (by simp [hsales, hanal])]
      cases analyze (enrichedSalesRequest request)
          (some (PyData.frame sampleFrame)) <;> rfl
  refine ⟨hdm, ?_⟩
  simp only [managerProcessRequestE]
  by_cases hd : managerDetermineRequestType request = "data"
  · rw [if_pos hd]; exact hdm
  · rw [if_neg hd]
    by_cases ho2 : managerDetermineRequestType request = "operation"
    · rw [if_pos ho2]; rfl
    · rw [if_neg ho2]
      by_cases hs2 : managerDetermineRequestType request = "system"
      · rw [if_pos hs2]; rfl
      · rw [if_neg hs2]; rfl

/-- Claim C3 amended witness: for the sales request 売上を分析,
a raising analyst is caught and both levels return normally. -/
theorem claim3_amended_witness :
    isOkE (dmProcessRequestE (fun _ _ => Except.error ("x").data)
        sampleFrameStub ("売上を分析").data) = true ∧
    isOkE (managerProcessRequestE (fun _ _ => Except.error ("x").data)
        sampleFrameStub ("売上を分析").data) = true :=
  claim3_amended (fun _ _ => Except.error ("x").data) sampleFrameStub
    ("売上を分析").data (by decide) (by decide)

/-- The scenario request of the sales-analysis pipeline. -/
def salesAnalysisRequest : Str := ("売上データを分析して").data

/-- Occurrence of three fragments in a text, in order. -/
def ContainsInOrder (s a b c : Str) : Prop :=
  ∃ p1 p2 p3 p4 : Str, s = p1 ++ a ++ p2 ++ b ++ p3 ++ c ++ p4

/-- Claim C4: for 売上データを分析して, the dispatcher classifies `"data"`,
the data manager classifies `"analysis_only"`, the pipeline invokes the
analyst on the enriched prompt with the generated sample data frame attached
(wrapping its answer, or a caught exception, into the sales reply), and the
report of the real analysis contains the overview, statistics and
visualization section headers in that order, for every data frame and
timestamp. -/
theorem claim4_sales_pipeline :
    managerDetermineRequestType salesAnalysisRequest = "data" ∧
    dmDetermineRequestType salesAnalysisRequest = "analysis_only" ∧
    (∀ (analyze : Str → Option PyData → Except Str Str)
        (sampleFrame : SalesFrame),
        managerProcessRequestE analyze sampleFrame salesAnalysisRequest =
          match analyze (enrichedSalesRequest salesAnalysisRequest)
              (some (PyData.frame sampleFrame)) with
          | Except.ok a => Except.ok (salesAnalysisWrap a)
          | Except.error e => Except.ok (dmAnalysisErrorMessage e)) ∧
    (∀ (df : SalesFrame) (timestamp : Nat),
        ContainsInOrder (performRealDataAnalysis df timestamp).1
          overviewHeader statsHeader vizHeader) := by
  refine ⟨by decide, by decide, ?_, ?_⟩
  · intro analyze sampleFrame
    simp only [managerProcessRequestE]
    rw [show managerDetermineRequestType salesAnalysisRequest = "data" from
      by decide]
    rw [if_pos rfl]
    simp only [dmProcessRequestE]
    rw [show dmDetermineRequestType salesAnalysisRequest = "analysis_only" from
      by decide]
    rw [if_neg (by decide), if_pos rfl, if_pos (by decide)]
  · intro df timestamp
    refine ⟨[],
      ("\n\n").data ++ dataInfoBlock df ++ ("\n\n").data,
      ("\n\n").data ++ (("```\n").data ++ df.statsText ++ ("\n```").data) ++
        ("\n\n").data,
      ("\n\n").data ++
        joinSep ("\n\n").data ((analysisReportSections df timestamp).drop 5),
      ?_⟩
    simp [performRealDataAnalysis, analysisReportSections, joinSep,
      List.append_assoc]

/-- Claim C4 witness: with a concrete analyst answer, the pipeline returns
the wrapped sales reply, and the concrete report contains the three section
headers in order. -/
theorem claim4_sales_pipeline_witness :
    managerProcessRequestE (fun _ _ => Except.ok ("R").data) sampleFrameStub
        salesAnalysisRequest
      = Except.ok (salesAnalysisWrap ("R").data) ∧
    ContainsInOrder (performRealDataAnalysis sampleFrameStub 0).1
      overviewHeader statsHeader vizHeader :=
  ⟨by rw [claim4_sales_pipeline.2.2.1 (fun _ _ => Except.ok ("R").data)
      sampleFrameStub],
   claim4_sales_pipeline.2.2.2 sampleFrameStub 0⟩

/-- One collected metrics sample.  The numeric payload comes from the
external psutil provider and plays no role in the lifecycle claims, so it is
kept as an abstract field. -/
structure Metrics where
  payload : Nat
deriving DecidableEq

/-- One alert produced by `_check_alerts` for a sample. -/
structure Alert where
  payload : Nat
deriving DecidableEq

/-- State of `MonitorCat` relevant to the monitoring lifecycle:
the active flag, the interval, the registered callback (by identifier) and
the bounded monitoring history. -/
structure MonitorCat where
  monitoringActive : Bool
  monitoringInterval : Nat
  alertCallback : Option Nat
  monitoringHistory : List Metrics
deriving DecidableEq

/-- `MonitorCat.start_monitoring`: refuse (returning `False`, changing
nothing) when already active; otherwise record interval and callback, set
the active flag and spawn the loop, returning `True`. -/
def MonitorCat.startMonitoring (st : MonitorCat) (interval : Nat)
    (alertCallback : Option Nat) : Bool × MonitorCat :=
  if st.monitoringActive then
    (false, st)
  else
    (true, { st with
      monitoringInterval := interval
      alertCallback := alertCallback
      monitoringActive := true })

/-- `MonitorCat.stop_monitoring`: refuse (returning `False`, changing
nothing) when already inactive; otherwise clear the active flag and return
`True` (joining the worker thread is external timing). -/
def MonitorCat.stopMonitoring (st : MonitorCat) : Bool × MonitorCat :=
  if st.monitoringActive then
    (true, { st with monitoringActive := false })
  else
    (false, st)

/-- One cycle of `_monitoring_loop`, at the granularity at which the loop
observes the active flag (the `while` condition at the top of each cycle):
when active, append the collected sample to the bounded history and fire the
registered callback on each alert of the sample; when inactive, exit without
collecting.  `alerts` stands for the `_check_alerts` result on the sample,
whose thresholds live in the external metrics domain.  The second component
lists the callback invocations of the cycle. -/
def monitoringLoopIter (st : MonitorCat) (sample : Metrics)
    (alerts : List Alert) : MonitorCat × List Alert :=
  if st.monitoringActive then
    ({ st with monitoringHistory :=
        addToHistory monitorCatMaxHistoryLength st.monitoringHistory sample },
     if st.alertCallback.isSome then alerts else [])
  else
    (st, [])

/-- A run of the monitoring loop over a sequence of samples, accumulating
every callback invocation. -/
def runMonitoringLoop (st : MonitorCat)
    (samples : List (Metrics × List Alert)) : MonitorCat × List Alert :=
  samples.foldl
    (fun acc s =>
      let r := monitoringLoopIter acc.1 s.1 s.2
      (r.1, acc.2 ++ r.2))
    (st, [])

theorem runMonitoringLoop_inactive_aux
    (samples : List (Metrics × List Alert)) :
    ∀ (st : MonitorCat) (acc : List Alert), st.monitoringActive = false →
      samples.foldl
          (fun acc s =>
            let r := monitoringLoopIter acc.1 s.1 s.2
            (r.1, acc.2 ++ r.2))
          (st, acc) = (st, acc) := by
  induction samples with
  | nil => intro st acc _; rfl
  | cons s rest ih =>
      intro st acc h
      simp only [List.foldl_cons, monitoringLoopIter, h, Bool.false_eq_true,
        if_false, List.append_nil]
      exact ih st acc h

/-- Claim C8: `start_monitoring` returns `False` and changes nothing when the
monitor is already active; `stop_monitoring` returns `False` and changes
nothing when it is already inactive; and after a `stop_monitoring` call that
returns `True`, a loop run over any further samples neither appends to the
monitoring history nor fires any alert callback: the loop observes the
cleared flag at the top of each cycle and exits. -/
theorem claim8_monitor_lifecycle :
    (∀ (st : MonitorCat) (interval : Nat) (alertCallback : Option Nat),
        st.monitoringActive = true →
        st.startMonitoring interval alertCallback = (false, st)) ∧
    (∀ st : MonitorCat, st.monitoringActive = false →
        st.stopMonitoring = (false, st)) ∧
    (∀ st : MonitorCat, (st.stopMonitoring).1 = true →
        ∀ samples : List (Metrics × List Alert),
          runMonitoringLoop (st.stopMonitoring).2 samples
            = ((st.stopMonitoring).2, [])) := by
  refine ⟨?_, ?_, ?_⟩
  · intro st interval alertCallback h
    simp [MonitorCat.startMonitoring, h]
  · intro st h
    simp [MonitorCat.stopMonitoring, h]
  · intro st h samples
    have hact : st.monitoringActive = true := by
      by_contra hne
      have hf : st.monitoringActive = false := by
        cases hx : st.monitoringActive
        · rfl
        · exact absurd hx hne
      simp [MonitorCat.stopMonitoring, hf] at h
    have hstop : (st.stopMonitoring).2.monitoringActive = false := by
      simp [MonitorCat.stopMonitoring, hact]
    exact runMonitoringLoop_inactive_aux samples (st.stopMonitoring).2 [] hstop

/-- Claim C8 witness: concrete lifecycle.  Starting an active monitor and
stopping an inactive one are refused no-ops, and after a successful stop a
run over one alert-carrying sample collects nothing and fires nothing. -/
theorem claim8_monitor_lifecycle_witness :
    MonitorCat.startMonitoring
        { monitoringActive := true
          monitoringInterval := 60
          alertCallback := none
          monitoringHistory := [] } 30 (some 7)
      = (false,
          { monitoringActive := true
            monitoringInterval := 60
            alertCallback := none
            monitoringHistory := [] }) ∧
    MonitorCat.stopMonitoring
        { monitoringActive := false
          monitoringInterval := 60
          alertCallback := none
          monitoringHistory := [] }
      = (false,
          { monitoringActive := false
            monitoringInterval := 60
            alertCallback := none
            monitoringHistory := [] }) ∧
    runMonitoringLoop
        (MonitorCat.stopMonitoring
          { monitoringActive := true
            monitoringInterval := 60
            alertCallback := some 7
            monitoringHistory := [] }).2
        [(⟨0⟩, [⟨1⟩])]
      = ((MonitorCat.stopMonitoring
          { monitoringActive := true
            monitoringInterval := 60
            alertCallback := some 7
            monitoringHistory := [] }).2, []) :=
  ⟨claim8_monitor_lifecycle.1
      { monitoringActive := true
        monitoringInterval := 60
        alertCallback := none
        monitoringHistory := [] } 30 (some 7) rfl,
   claim8_monitor_lifecycle.2.1
      { monitoringActive := false
        monitoringInterval := 60
        alertCallback := none
        monitoringHistory := [] } rfl,
   claim8_monitor_lifecycle.2.2
      { monitoringActive := true
        monitoringInterval := 60
        alertCallback := some 7
        monitoringHistory := [] } rfl [(⟨0⟩, [⟨1⟩])]⟩

/-- One row of the `messages` table of `SqliteAgentStorage` (`id` is the
primary key; the REAL timestamp is modelled at the granularity the ordering
uses). -/
structure MessageRow where
  id : Str
  agentId : Str
  role : Str
  content : Str
  timestamp : Nat
  metadata : Str
deriving DecidableEq

/-- `SqliteAgentStorage.save_message`: `INSERT OR REPLACE` keyed on the
message id — any existing row with the same id (whatever its agent) is
deleted and the new row inserted. -/
def saveMessage (table : List MessageRow) (agentId msgId role content : Str)
    (timestamp : Nat) (metadata : Str) : List MessageRow :=
  (table.filter (fun r => !(r.id == msgId))) ++
    [{ id := msgId
       agentId := agentId
       role := role
       content := content
       timestamp := timestamp
       metadata := metadata }]

/-- Insertion step of the `ORDER BY timestamp DESC` reading of the query. -/
def insertByTimestampDesc (r : MessageRow) :
    List MessageRow → List MessageRow
  | [] => [r]
  | x :: xs =>
      if x.timestamp < r.timestamp then r :: x :: xs
      else x :: insertByTimestampDesc r xs

/-- Deterministic model of `ORDER BY timestamp DESC` (SQLite leaves ties
unspecified; this model resolves them deterministically). -/
def sortByTimestampDesc : List MessageRow → List MessageRow
  | [] => []
  | x :: xs => insertByTimestampDesc x (sortByTimestampDesc xs)

/-- Insertion step of the final ascending Python sort. -/
def insertByTimestampAsc (r : MessageRow) :
    List MessageRow → List MessageRow
  | [] => [r]
  | x :: xs =>
      if r.timestamp < x.timestamp then r :: x :: xs
      else x :: insertByTimestampAsc r xs

/-- The final `messages.sort(key=lambda x: x['timestamp'])`. -/
def sortByTimestampAsc : List MessageRow → List MessageRow
  | [] => []
  | x :: xs => insertByTimestampAsc x (sortByTimestampAsc xs)

/-- `SqliteAgentStorage.get_messages`: select the rows of the identity,
order by timestamp descending with `LIMIT`/`OFFSET`, then re-sort the page
ascending by timestamp. -/
def getMessages (table : List MessageRow) (agentId : Str)
    (limit offset : Nat) : List MessageRow :=
  let selected :=
    ((sortByTimestampDesc
        (table.filter (fun r => r.agentId == agentId))).drop offset).take limit
  sortByTimestampAsc selected

theorem mem_of_mem_insertByTimestampDesc (x r : MessageRow) :
    ∀ l : List MessageRow, x ∈ insertByTimestampDesc r l → x = r ∨ x ∈ l := by
  intro l
  induction l with
  | nil =>
      intro h
      simp only [insertByTimestampDesc] at h
      exact Or.inl (List.mem_singleton.mp h)
  | cons a t ih =>
      intro h
      simp only [insertByTimestampDesc] at h
      by_cases hc : a.timestamp < r.timestamp
      · rw [if_pos hc] at h
        rcases List.mem_cons.mp h with h1 | h1
        · exact Or.inl h1
        · exact Or.inr h1
      · rw [if_neg hc] at h
        rcases List.mem_cons.mp h with h1 | h1
        · exact Or.inr (List.mem_cons.mpr (Or.inl h1))
        · rcases ih h1 with h2 | h2
          · exact Or.inl h2
          · exact Or.inr (List.mem_cons.mpr (Or.inr h2))

theorem mem_of_mem_sortByTimestampDesc (x : MessageRow) :
    ∀ l : List MessageRow, x ∈ sortByTimestampDesc l → x ∈ l := by
  intro l
  induction l with
  | nil => intro h; simp [sortByTimestampDesc] at h
  | cons a t ih =>
      intro h
      simp only [sortByTimestampDesc] at h
      rcases mem_of_mem_insertByTimestampDesc x a (sortByTimestampDesc t) h with
        h1 | h1
      · exact List.mem_cons.mpr (Or.inl h1)
      · exact List.mem_cons.mpr (Or.inr (ih h1))

theorem mem_of_mem_insertByTimestampAsc (x r : MessageRow) :
    ∀ l : List MessageRow, x ∈ insertByTimestampAsc r l → x = r ∨ x ∈ l := by
  intro l
  induction l with
  | nil =>
      intro h
      simp only [insertByTimestampAsc] at h
      exact Or.inl (List.mem_singleton.mp h)
  | cons a t ih =>
      intro h
      simp only [insertByTimestampAsc] at h
      by_cases hc : r.timestamp < a.timestamp
      · rw [if_pos hc] at h
        rcases List.mem_cons.mp h with h1 | h1
        · exact Or.inl h1
        · exact Or.inr h1
      · rw [if_neg hc] at h
        rcases List.mem_cons.mp h with h1 | h1
        · exact Or.inr (List.mem_cons.mpr (Or.inl h1))
        · rcases ih h1 with h2 | h2
          · exact Or.inl h2
          · exact Or.inr (List.mem_cons.mpr (Or.inr h2))

theorem mem_of_mem_sortByTimestampAsc (x : MessageRow) :
    ∀ l : List MessageRow, x ∈ sortByTimestampAsc l → x ∈ l := by
  intro l
  induction l with
  | nil => intro h; simp [sortByTimestampAsc] at h
  | cons a t ih =>
      intro h
      simp only [sortByTimestampAsc] at h
      rcases mem_of_mem_insertByTimestampAsc x a (sortByTimestampAsc t) h with
        h1 | h1
      · exact List.mem_cons.mpr (Or.inl h1)
      · exact List.mem_cons.mpr (Or.inr (ih h1))

/-- Store holding one message of identity `A`. -/
def claim9Table1 : List MessageRow :=
  saveMessage [] ("A").data ("m1").data ("user").data ("hello").data 1 []

/-- The same store after a save under identity `B` reusing the id `m1`. -/
def claim9Table2 : List MessageRow :=
  saveMessage claim9Table1 ("B").data ("m1").data ("user").data ("hi").data 2 []

/-- Claim C9 counterexample: saving a message under identity `B` that reuses
the id of an existing message of identity `A` makes `INSERT OR REPLACE`
delete `A`'s row, so `get_messages("A")` goes from one message to none — a
save under `B` changed the result of `get_messages("A")`. -/
theorem claim9_counterexample :
    getMessages claim9Table2 ("A").data 50 0 = [] ∧
    getMessages claim9Table1 ("A").data 50 0 ≠ [] := by
  constructor
  · rfl
  · decide

/-- Claim C9 amended: every message returned by `get_messages(A)` is stored
under identity `A`; and saving a message under a different identity `B`
leaves `get_messages(A)` unchanged provided the saved message id differs
from the id of every existing row (as with the generated uuid default) — the
unconditional form fails on id collision, as the counterexample shows. -/
theorem claim9_amended :
    (∀ (table : List MessageRow) (agentId : Str) (limit offset : Nat)
        (r : MessageRow),
        r ∈ getMessages table agentId limit offset → r.agentId = agentId) ∧
    (∀ (table : List MessageRow) (idA idB msgId role content : Str)
        (timestamp : Nat) (metadata : Str) (limit offset : Nat),
        idA ≠ idB →
        (∀ r ∈ table, r.id ≠ msgId) →
        getMessages
            (saveMessage table idB msgId role content timestamp metadata)
            idA limit offset
          = getMessages table idA limit offset) := by
  constructor
  · intro table agentId limit offset r h
    simp only [getMessages] at h
    have h1 := mem_of_mem_sortByTimestampAsc r _ h
    have h2 := List.take_subset _ _ h1
    have h3 := List.drop_subset _ _ h2
    have h4 := mem_of_mem_sortByTimestampDesc r _ h3
    have h5 := List.mem_filter.mp h4
    simpa using h5.2
  · intro table idA idB msgId role content timestamp metadata limit offset
      hne hfresh
    have hfil : table.filter (fun r => !(r.id == msgId)) = table := by
      apply List.filter_eq_self.mpr
      intro r hr
      simpa using hfresh r hr
    have hrow : (idB == idA) = false := by
      simp only [beq_eq_false_iff_ne, ne_eq]
      exact fun h => hne h.symm
    simp only [getMessages, saveMessage, hfil, List.filter_append,
      List.filter_cons, hrow, Bool.false_eq_true, if_false, List.filter_nil,
      List.append_nil]

/-- The row held by `claim9Table1`. -/
def claim9RowA : MessageRow :=
  { id := ("m1").data
    agentId := ("A").data
    role := ("user").data
    content := ("hello").data
    timestamp := 1
    metadata := [] }

/-- Claim C9 amended witness: on the one-row store of identity `A`, the
returned message carries identity `A`, and a save under `B` with the fresh
id `m2` leaves `get_messages("A")` unchanged. -/
theorem claim9_amended_witness :
    claim9RowA.agentId = ("A").data ∧
    getMessages
        (saveMessage claim9Table1 ("B").data ("m2").data ("user").data
          ("hi").data 2 [])
        ("A").data 50 0
      = getMessages claim9Table1 ("A").data 50 0 :=
  ⟨claim9_amended.1 claim9Table1 ("A").data 50 0 claim9RowA (by decide),
   claim9_amended.2 claim9Table1 ("A").data ("B").data ("m2").data
     ("user").data ("hi").data 2 [] 50 0 (by decide) (by decide)⟩

end NekoNexus
